import Mathlib

/-!
Verification of the bytecode-to-SSA graph construction orchestrator
(`art::HGraphBuilder` in `compiler/optimizing/builder.cc`).

The orchestrator (`BuildGraph`, `BuildIntrinsicGraph`, `SkipCompilation`) is
embedded directly from the source.  The four pipeline stages it sequences
(basic-block builder, dominator-tree construction, instruction builder,
SSA builder) live in collaborator files that are not part of this
development; `BuildGraph` is therefore parameterized by the outcomes those
stages may report, and where a claim depends on a collaborator's behaviour
the collaborator is modelled from the specification (each such definition
says so in its doc comment).
-/

namespace ART

/-- The outcome enum threaded through all stages of graph analysis.
Success, invalid bytecode, policy skip, and stage-specific structural
failure variants (the latter modelled from the spec: the repository excerpt
only propagates them). -/
inductive GraphAnalysisResult where
  | kAnalysisSkipped
  | kAnalysisInvalidBytecode
  | kAnalysisFailThrowCatchLoop
  | kAnalysisFailAmbiguousArrayOp
  | kAnalysisSuccess
  deriving DecidableEq, Repr

open GraphAnalysisResult

/-- The compiler filter values relevant to `SkipCompilation`: the source
only compares the configured filter against `kEverything`. -/
inductive CompilerFilter where
  | kVerify
  | kSpeedProfile
  | kSpeed
  | kEverything
  deriving DecidableEq, Repr

/-- Compiler options carried by the code generator: the configured filter
and the huge-method threshold consulted by `IsHugeMethod`. -/
structure CompilerOptions where
  compilerFilter : CompilerFilter
  hugeMethodThreshold : Nat
  deriving Repr

/-- Modelled from the spec: `CompilerOptions::IsHugeMethod` is not under
the excerpted sources; the spec pins the boundary ("a method whose code
size is exactly at the configured huge-method threshold is compiled; one
unit above is `Skipped`"), i.e. the predicate is a strict comparison. -/
def CompilerOptions.IsHugeMethod (opts : CompilerOptions) (codeUnits : Nat) : Bool :=
  opts.hugeMethodThreshold < codeUnits

/-- The code generator, as seen by the builder: a possibly-absent carrier
of compiler options (`code_generator_` is null when unit testing). -/
structure CodeGenerator where
  compilerOptions : CompilerOptions
  deriving Repr

/-- The code-item metadata exposed by the bytecode accessor:
declared register count, incoming-argument register count, and the code
size in code units. -/
structure CodeItem where
  registersSize : Nat
  insSize : Nat
  insnsSizeInCodeUnits : Nat
  deriving Repr

/-- The state of `HGraphBuilder` that `SkipCompilation` and `BuildGraph`
read: the (possibly null) code generator and the code-item accessor. -/
structure HGraphBuilder where
  codeGenerator : Option CodeGenerator
  codeItem : CodeItem
  deriving Repr

/-- `HGraphBuilder::SkipCompilation`, embedded from the source: never skip
when the code generator is null (unit testing) or the filter is
`kEverything`; otherwise skip exactly the huge methods. -/
def HGraphBuilder.SkipCompilation (b : HGraphBuilder) : Bool :=
  match b.codeGenerator with
  | none => false
  | some cg =>
    if cg.compilerOptions.compilerFilter = CompilerFilter.kEverything then
      false
    else if cg.compilerOptions.IsHugeMethod b.codeItem.insnsSizeInCodeUnits then
      true
    else
      false

/-- The graph fields the orchestrator writes: vreg counts and the block
skeleton (successor lists indexed by block id). -/
structure HGraph where
  numberOfVRegs : Nat
  numberOfInVRegs : Nat
  blocks : List (List Nat)
  deriving Repr

/-- The pipeline stages `BuildGraph` may execute, in the order the source
sequences them; `skipCheck` is the policy decision between block
partitioning and dominator analysis. -/
inductive Stage where
  | blockPartitioning
  | skipCheck
  | dominatorAnalysis
  | instructionMaterialization
  | ssaFinalization
  deriving DecidableEq, Repr

/-- Outcomes of the four collaborator stages of one `BuildGraph` run.
The stage bodies are in collaborator files; the orchestrator only
branches on these outcomes, so they are left universally quantified. -/
structure StageOutcomes where
  blockBuildOk : Bool
  domResult : GraphAnalysisResult
  instrBuildOk : Bool
  ssaResult : GraphAnalysisResult
  deriving Repr

/-- `HGraphBuilder::BuildGraph`, embedded from the source: record the vreg
counts from the code item, then sequence block partitioning, the skip
check, dominator analysis, instruction materialization and SSA
finalization, returning the first failure (or skip) outcome.  Besides the
result the embedding returns the graph state and the list of stages that
were executed, in execution order. -/
def HGraphBuilder.BuildGraph (b : HGraphBuilder) (g : HGraph) (st : StageOutcomes) :
    GraphAnalysisResult × HGraph × List Stage :=
  let g' : HGraph :=
    { g with
      numberOfVRegs := b.codeItem.registersSize
      numberOfInVRegs := b.codeItem.insSize }
  if st.blockBuildOk = false then
    (kAnalysisInvalidBytecode, g', [Stage.blockPartitioning])
  else if b.SkipCompilation then
    (kAnalysisSkipped, g', [Stage.blockPartitioning, Stage.skipCheck])
  else if st.domResult ≠ kAnalysisSuccess then
    (st.domResult, g',
      [Stage.blockPartitioning, Stage.skipCheck, Stage.dominatorAnalysis])
  else if st.instrBuildOk = false then
    (kAnalysisInvalidBytecode, g',
      [Stage.blockPartitioning, Stage.skipCheck, Stage.dominatorAnalysis,
       Stage.instructionMaterialization])
  else
    (st.ssaResult, g',
      [Stage.blockPartitioning, Stage.skipCheck, Stage.dominatorAnalysis,
       Stage.instructionMaterialization, Stage.ssaFinalization])

/-- Number of method arguments read from the shorty: `strlen(shorty + 1)`
(the first shorty character is the return type). -/
def numArgs (shorty : List Char) : Nat :=
  (shorty.drop 1).length

/-- Number of wide (64-bit) arguments:
`std::count(shorty + 1, ..., 'J') + std::count(shorty + 1, ..., 'D')`. -/
def numWideArgs (shorty : List Char) : Nat :=
  (shorty.drop 1).count 'J' + (shorty.drop 1).count 'D'

/-- `num_arg_vregs` of `BuildIntrinsicGraph`: each argument takes one vreg,
each wide argument one more, and a non-static method one extra vreg for
the implicit receiver. -/
def numArgVregs (shorty : List Char) (isStatic : Bool) : Nat :=
  numArgs shorty + numWideArgs shorty + (if isStatic then 0 else 1)

/-- `return_vregs` of `BuildIntrinsicGraph`: 2 vregs (the maximum) are
reserved for the return value regardless of the return type. -/
def returnVregs : Nat := 2

/-- Modelled from the spec: `HBasicBlockBuilder::BuildIntrinsic` is not
under the excerpted sources; the spec's intrinsic-only mode "builds the
minimal fixed skeleton (one entry block, one body block, one exit block)".
Block 0 is the entry, block 1 the body, block 2 the exit; the list holds
each block's successors. -/
def intrinsicSkeleton : List (List Nat) := [[1], [2], []]

/-- Predecessors of block `i` in a block skeleton given by successor
lists: every block that lists `i` among its successors. -/
def predecessorsOf (blocks : List (List Nat)) (i : Nat) : List Nat :=
  (List.range blocks.length).filter (fun p => i ∈ blocks.getD p [])

/-- Fuelled forward closure of a frontier under the successor relation,
used to compute the set of blocks reachable from the entry. -/
def reachableFrom (blocks : List (List Nat)) : Nat → List Nat → List Nat
  | 0, acc => acc
  | n + 1, acc =>
    let next :=
      ((acc.map (fun i => blocks.getD i [])).flatten).filter (fun j => j ∉ acc)
    if next = [] then acc else reachableFrom blocks n (acc ++ next)

/-- Modelled from the spec: `HGraph::BuildDominatorTree` is not under the
excerpted sources.  The spec says it "fails only if the skeleton is
malformed in a way that prevents a well-defined dominator tree (e.g.,
entry with a predecessor, or a block not reachable from entry that is
nonetheless required by the try/catch table)", reported as a structural
failure, and never silently patched. -/
def HGraph.BuildDominatorTree (g : HGraph) (requiredBlocks : List Nat) :
    GraphAnalysisResult :=
  if predecessorsOf g.blocks 0 ≠ [] then
    kAnalysisFailThrowCatchLoop
  else if requiredBlocks.all
      (fun r => r ∈ reachableFrom g.blocks g.blocks.length [0]) then
    kAnalysisSuccess
  else
    kAnalysisFailThrowCatchLoop

/-- The per-value types the SSA finalizer distinguishes when resolving
ambiguous typing: reference, integer-like, float-like, or still
ambiguous. -/
inductive ValType where
  | reference
  | intLike
  | floatLike
  | ambiguous
  deriving DecidableEq, Repr

/-- A phi node as the SSA finalizer sees it after value merging: one
resolved input type per predecessor edge, in predecessor order. -/
structure Phi where
  inputs : List ValType
  deriving DecidableEq, Repr

/-- A value type is primitive when it is integer-like or float-like. -/
def ValType.isPrimitive : ValType → Bool
  | ValType.intLike => true
  | ValType.floatLike => true
  | _ => false

/-- A phi mixes reference and primitive inputs when some input is a
reference and some input is primitive. -/
def Phi.mixesRefAndPrim (p : Phi) : Bool :=
  p.inputs.any (fun t => t = ValType.reference) && p.inputs.any ValType.isPrimitive

/-- Modelled from the spec: `SsaBuilder::BuildSsa` is not under the
excerpted sources.  Its typing rule says "mixing reference and primitive
inputs into the same phi after resolution is invalid-bytecode"; a graph
whose phis (with their post-resolution input types) contain such a mix is
rejected, and otherwise SSA finalization succeeds. -/
def SsaBuilder.BuildSsa (phis : List Phi) : GraphAnalysisResult :=
  if phis.any Phi.mixesRefAndPrim then
    kAnalysisInvalidBytecode
  else
    kAnalysisSuccess

/-- The merge of a vreg at a block with several predecessors: one input
per predecessor edge, in predecessor order, giving the phi the SSA
finalizer must type. -/
def phiAtMerge (predVregTypes : List ValType) : Phi :=
  ⟨predVregTypes⟩

/-- What the void `HGraphBuilder::BuildIntrinsicGraph` leaves behind: the
graph it built, plus the outcomes of the two stage calls whose success the
source asserts with `DCHECK_EQ(..., kAnalysisSuccess)`. -/
structure IntrinsicBuildOutcome where
  graph : HGraph
  bdtResult : GraphAnalysisResult
  buildSsaResult : GraphAnalysisResult
  deriving Repr

/-- `HGraphBuilder::BuildIntrinsicGraph`, embedded from the source: set
the vreg counts computed from the shorty, build the fixed intrinsic block
skeleton, build the trivial dominator tree, and type the graph; the
intrinsic skeleton has no try/catch table (no required blocks) and no
phis.  The function is void: it returns no `GraphAnalysisResult`, and the
two stage results are only checked against `kAnalysisSuccess` in debug
builds. -/
def HGraphBuilder.BuildIntrinsicGraph (shorty : List Char) (isStatic : Bool)
    (g : HGraph) : IntrinsicBuildOutcome :=
  let nav := numArgVregs shorty isStatic
  let g' : HGraph :=
    { g with
      numberOfVRegs := returnVregs + nav
      numberOfInVRegs := nav
      blocks := intrinsicSkeleton }
  { graph := g'
    bdtResult := g'.BuildDominatorTree []
    buildSsaResult := SsaBuilder.BuildSsa [] }

/-- Modelled from the spec: the outcome range of the collaborator stages
(bodies not under the excerpted sources).  The dominator analyzer reports
success or "a distinct structural-failure code" and the SSA finalizer
reports success or invalid-bytecode; in particular neither ever reports
the policy-skip outcome, which only the skip check produces. -/
def StageOutcomes.WellFormed (st : StageOutcomes) : Prop :=
  (st.domResult = kAnalysisSuccess ∨
   st.domResult = kAnalysisFailThrowCatchLoop ∨
   st.domResult = kAnalysisFailAmbiguousArrayOp) ∧
  (st.ssaResult = kAnalysisSuccess ∨ st.ssaResult = kAnalysisInvalidBytecode)

instance (st : StageOutcomes) : Decidable st.WellFormed := by
  unfold StageOutcomes.WellFormed
  infer_instance

theorem buildGraph_fst (b : HGraphBuilder) (g : HGraph) (st : StageOutcomes) :
    (b.BuildGraph g st).1 =
      if st.blockBuildOk = false then kAnalysisInvalidBytecode
      else if b.SkipCompilation then kAnalysisSkipped
      else if st.domResult ≠ kAnalysisSuccess then st.domResult
      else if st.instrBuildOk = false then kAnalysisInvalidBytecode
      else st.ssaResult := by
  unfold HGraphBuilder.BuildGraph
  repeat' split
  all_goals rfl

theorem buildGraph_trace (b : HGraphBuilder) (g : HGraph) (st : StageOutcomes) :
    (b.BuildGraph g st).2.2 =
      if st.blockBuildOk = false then [Stage.blockPartitioning]
      else if b.SkipCompilation then [Stage.blockPartitioning, Stage.skipCheck]
      else if st.domResult ≠ kAnalysisSuccess then
        [Stage.blockPartitioning, Stage.skipCheck, Stage.dominatorAnalysis]
      else if st.instrBuildOk = false then
        [Stage.blockPartitioning, Stage.skipCheck, Stage.dominatorAnalysis,
         Stage.instructionMaterialization]
      else
        [Stage.blockPartitioning, Stage.skipCheck, Stage.dominatorAnalysis,
         Stage.instructionMaterialization, Stage.ssaFinalization] := by
  unfold HGraphBuilder.BuildGraph
  repeat' split
  all_goals rfl

end ART

open ART
open ART.GraphAnalysisResult

theorem buildGraph_graph (b : HGraphBuilder) (g : HGraph) (st : StageOutcomes) :
    (b.BuildGraph g st).2.1 =
      { g with
        numberOfVRegs := b.codeItem.registersSize
        numberOfInVRegs := b.codeItem.insSize } := by
  unfold HGraphBuilder.BuildGraph
  repeat' split
  all_goals rfl

/-- C1: `BuildGraph` returns `kAnalysisSuccess` exactly when block
partitioning, dominator analysis, instruction materialization and SSA
finalization all succeed and the skip policy does not trigger; a
block-partitioner failure yields `kAnalysisInvalidBytecode`, the skip
policy yields `kAnalysisSkipped`, a dominator-analysis failure propagates
that stage's result code unchanged, an instruction-materializer failure
yields `kAnalysisInvalidBytecode`, and otherwise the SSA finalizer's
result is returned; being a total function, the embedding always returns
the outcome to the caller, never aborting. -/
theorem C1_result_routing (b : HGraphBuilder) (g : HGraph) (st : StageOutcomes) :
    ((b.BuildGraph g st).1 = kAnalysisSuccess ↔
       st.blockBuildOk = true ∧ b.SkipCompilation = false ∧
       st.domResult = kAnalysisSuccess ∧ st.instrBuildOk = true ∧
       st.ssaResult = kAnalysisSuccess) ∧
    (st.blockBuildOk = false →
       (b.BuildGraph g st).1 = kAnalysisInvalidBytecode) ∧
    (st.blockBuildOk = true → b.SkipCompilation = true →
       (b.BuildGraph g st).1 = kAnalysisSkipped) ∧
    (st.blockBuildOk = true → b.SkipCompilation = false →
       st.domResult ≠ kAnalysisSuccess →
       (b.BuildGraph g st).1 = st.domResult) ∧
    (st.blockBuildOk = true → b.SkipCompilation = false →
       st.domResult = kAnalysisSuccess → st.instrBuildOk = false →
       (b.BuildGraph g st).1 = kAnalysisInvalidBytecode) ∧
    (st.blockBuildOk = true → b.SkipCompilation = false →
       st.domResult = kAnalysisSuccess → st.instrBuildOk = true →
       (b.BuildGraph g st).1 = st.ssaResult) := by
  rw [buildGraph_fst]
  rcases st with ⟨bb, dr, ib, sr⟩
  cases bb <;> cases hs : b.SkipCompilation <;> cases dr <;> cases ib <;>
    cases sr <;> simp_all

/-- C2: the skip decision is evaluated only after block partitioning has
succeeded and only before dominator analysis (whenever the skip check
appears in the execution trace, block partitioning succeeded and
immediately precedes it, and dominator analysis can only come after it),
and whenever the run's result is `kAnalysisSkipped`, dominator analysis,
instruction materialization and SSA finalization are never executed. -/
theorem C2_skip_timing (b : HGraphBuilder) (g : HGraph) (st : StageOutcomes)
    (hwf : st.WellFormed) :
    (Stage.skipCheck ∈ (b.BuildGraph g st).2.2 →
       st.blockBuildOk = true ∧
       (b.BuildGraph g st).2.2.take 2 =
         [Stage.blockPartitioning, Stage.skipCheck]) ∧
    (Stage.dominatorAnalysis ∈ (b.BuildGraph g st).2.2 →
       (b.BuildGraph g st).2.2.take 3 =
         [Stage.blockPartitioning, Stage.skipCheck, Stage.dominatorAnalysis]) ∧
    ((b.BuildGraph g st).1 = kAnalysisSkipped →
       Stage.dominatorAnalysis ∉ (b.BuildGraph g st).2.2 ∧
       Stage.instructionMaterialization ∉ (b.BuildGraph g st).2.2 ∧
       Stage.ssaFinalization ∉ (b.BuildGraph g st).2.2) := by
  rw [buildGraph_fst, buildGraph_trace]
  rcases st with ⟨bb, dr, ib, sr⟩
  rcases hwf with ⟨hdr, hsr⟩
  cases bb <;> cases hs : b.SkipCompilation <;> cases dr <;> cases ib <;>
    cases sr <;> simp_all

/-- C2 witness: a concrete skipping run in which the trace begins with the
block partitioner followed by the skip check and dominator analysis is not
executed. -/
theorem C2_skip_timing_witness :
    ((⟨some ⟨⟨CompilerFilter.kSpeed, 10⟩⟩, ⟨4, 2, 11⟩⟩ : HGraphBuilder).BuildGraph
       ⟨0, 0, []⟩ ⟨true, kAnalysisSuccess, true, kAnalysisSuccess⟩).2.2.take 2 =
      [Stage.blockPartitioning, Stage.skipCheck] ∧
    Stage.dominatorAnalysis ∉
      ((⟨some ⟨⟨CompilerFilter.kSpeed, 10⟩⟩, ⟨4, 2, 11⟩⟩ : HGraphBuilder).BuildGraph
       ⟨0, 0, []⟩ ⟨true, kAnalysisSuccess, true, kAnalysisSuccess⟩).2.2 := by
  have h :=
    C2_skip_timing (⟨some ⟨⟨CompilerFilter.kSpeed, 10⟩⟩, ⟨4, 2, 11⟩⟩ : HGraphBuilder)
      ⟨0, 0, []⟩ ⟨true, kAnalysisSuccess, true, kAnalysisSuccess⟩ (by decide)
  exact ⟨(h.1 (by decide)).2, (h.2.2 (by decide)).1⟩

/-- C3: whenever block partitioning fails, `BuildGraph` returns
`kAnalysisInvalidBytecode` and the execution trace consists of the block
partitioner alone: the skip check, dominator analysis, instruction
materialization and SSA finalization never ran. -/
theorem C3_partitioner_failure_is_first (b : HGraphBuilder) (g : HGraph)
    (st : StageOutcomes) (h : st.blockBuildOk = false) :
    (b.BuildGraph g st).1 = kAnalysisInvalidBytecode ∧
    (b.BuildGraph g st).2.2 = [Stage.blockPartitioning] := by
  rw [buildGraph_fst, buildGraph_trace]
  simp [h]

/-- C3 witness: a run whose block partitioning fails. -/
theorem C3_partitioner_failure_is_first_witness :
    ((⟨none, ⟨4, 2, 10⟩⟩ : HGraphBuilder).BuildGraph ⟨0, 0, []⟩
       ⟨false, kAnalysisSuccess, true, kAnalysisSuccess⟩).1 =
      kAnalysisInvalidBytecode ∧
    ((⟨none, ⟨4, 2, 10⟩⟩ : HGraphBuilder).BuildGraph ⟨0, 0, []⟩
       ⟨false, kAnalysisSuccess, true, kAnalysisSuccess⟩).2.2 =
      [Stage.blockPartitioning] :=
  C3_partitioner_failure_is_first _ _ _ rfl

/-- C4: whenever the resolved per-predecessor types merging at a shared
successor give some vreg a reference type on one predecessor edge and an
integer type on another — so the merge phi carries both a reference and a
primitive input — SSA finalization reports `kAnalysisInvalidBytecode`:
the mix is rejected, not repaired. -/
theorem C4_phi_type_conflict (predTypes : List ValType) (phis : List Phi)
    (hmem : phiAtMerge predTypes ∈ phis)
    (href : ValType.reference ∈ predTypes)
    (hint : ValType.intLike ∈ predTypes) :
    SsaBuilder.BuildSsa phis = kAnalysisInvalidBytecode := by
  have hmix : (phiAtMerge predTypes).mixesRefAndPrim = true := by
    unfold Phi.mixesRefAndPrim phiAtMerge
    rw [Bool.and_eq_true]
    exact ⟨List.any_eq_true.mpr ⟨ValType.reference, href, by simp⟩,
      List.any_eq_true.mpr ⟨ValType.intLike, hint, rfl⟩⟩
  unfold SsaBuilder.BuildSsa
  rw [if_pos (List.any_eq_true.mpr ⟨phiAtMerge predTypes, hmem, hmix⟩)]

/-- C4 witness: a two-predecessor merge where one edge carries a reference
and the other an integer. -/
theorem C4_phi_type_conflict_witness :
    SsaBuilder.BuildSsa [phiAtMerge [ValType.reference, ValType.intLike]] =
      kAnalysisInvalidBytecode :=
  C4_phi_type_conflict [ValType.reference, ValType.intLike] _
    (List.mem_singleton.mpr rfl) (by decide) (by decide)

/-- C5: for the intrinsic path applied to a non-static method with no code
item and shorty "III" (signature `(II)I`: two non-wide primitive
arguments, non-wide primitive return), the graph gets 5 total vregs
(2 reserved return vregs + 2 argument vregs + 1 implicit receiver vreg),
3 incoming vregs, and a 3-block skeleton (entry, body, exit). -/
theorem C5_intrinsic_shorty_III (g : HGraph) :
    (HGraphBuilder.BuildIntrinsicGraph ['I', 'I', 'I'] false g).graph.numberOfVRegs = 5 ∧
    (HGraphBuilder.BuildIntrinsicGraph ['I', 'I', 'I'] false g).graph.numberOfInVRegs = 3 ∧
    (HGraphBuilder.BuildIntrinsicGraph ['I', 'I', 'I'] false g).graph.blocks.length = 3 :=
  ⟨rfl, rfl, rfl⟩

/-- C6: for every intrinsic method the vreg layout satisfies
total vregs = number of arguments + number of wide arguments
+ (1 extra receiver vreg unless static) + 2 reserved return vregs,
and incoming vregs = total vregs - 2. -/
theorem C6_intrinsic_vreg_formula (shorty : List Char) (isStatic : Bool)
    (g : HGraph) :
    (HGraphBuilder.BuildIntrinsicGraph shorty isStatic g).graph.numberOfVRegs =
      numArgs shorty + numWideArgs shorty + (if isStatic then 0 else 1) + 2 ∧
    (HGraphBuilder.BuildIntrinsicGraph shorty isStatic g).graph.numberOfInVRegs =
      (HGraphBuilder.BuildIntrinsicGraph shorty isStatic g).graph.numberOfVRegs - 2 := by
  unfold HGraphBuilder.BuildIntrinsicGraph numArgVregs returnVregs
  cases isStatic <;> simp <;> omega

/-- C7: with a code generator present and a compiler filter other than
`kEverything`, a method whose code size is exactly the huge-method
threshold is not skipped, while one code unit above the threshold makes
`BuildGraph` (with block partitioning succeeding) return
`kAnalysisSkipped`. -/
theorem C7_huge_method_boundary (b : HGraphBuilder) (cg : CodeGenerator)
    (g : HGraph) (st : StageOutcomes)
    (hcg : b.codeGenerator = some cg)
    (hf : cg.compilerOptions.compilerFilter ≠ CompilerFilter.kEverything)
    (hbb : st.blockBuildOk = true) :
    (b.codeItem.insnsSizeInCodeUnits = cg.compilerOptions.hugeMethodThreshold →
       b.SkipCompilation = false) ∧
    (b.codeItem.insnsSizeInCodeUnits = cg.compilerOptions.hugeMethodThreshold + 1 →
       (b.BuildGraph g st).1 = kAnalysisSkipped) := by
  constructor
  · intro hsz
    unfold HGraphBuilder.SkipCompilation
    rw [hcg]
    simp [hf, CompilerOptions.IsHugeMethod, hsz]
  · intro hsz
    have hskip : b.SkipCompilation = true := by
      unfold HGraphBuilder.SkipCompilation
      rw [hcg]
      simp [hf, CompilerOptions.IsHugeMethod, hsz]
    rw [buildGraph_fst]
    simp [hbb, hskip]

/-- C7 witness: threshold 100; a 100-unit method is not skipped, and a
101-unit method's run returns `kAnalysisSkipped`. -/
theorem C7_huge_method_boundary_witness :
    (HGraphBuilder.SkipCompilation
       ⟨some ⟨⟨CompilerFilter.kSpeed, 100⟩⟩, ⟨4, 2, 100⟩⟩ = false) ∧
    ((⟨some ⟨⟨CompilerFilter.kSpeed, 100⟩⟩, ⟨4, 2, 101⟩⟩ : HGraphBuilder).BuildGraph
       ⟨0, 0, []⟩ ⟨true, kAnalysisSuccess, true, kAnalysisSuccess⟩).1 =
      kAnalysisSkipped :=
  ⟨(C7_huge_method_boundary ⟨some ⟨⟨CompilerFilter.kSpeed, 100⟩⟩, ⟨4, 2, 100⟩⟩
      ⟨⟨CompilerFilter.kSpeed, 100⟩⟩ ⟨0, 0, []⟩
      ⟨true, kAnalysisSuccess, true, kAnalysisSuccess⟩ rfl (by decide) rfl).1 rfl,
   (C7_huge_method_boundary ⟨some ⟨⟨CompilerFilter.kSpeed, 100⟩⟩, ⟨4, 2, 101⟩⟩
      ⟨⟨CompilerFilter.kSpeed, 100⟩⟩ ⟨0, 0, []⟩
      ⟨true, kAnalysisSuccess, true, kAnalysisSuccess⟩ rfl (by decide) rfl).2 rfl⟩

/-- C8: every run of `BuildGraph` leaves the graph's declared vreg count
equal to the code item's `RegistersSize` and its incoming-vreg count equal
to the code item's `InsSize`; the statement is unconditional in the stage
outcomes, so it covers the `kAnalysisInvalidBytecode` and
`kAnalysisSkipped` runs as well — the fields are set before the first
stage and never rolled back. -/
theorem C8_vreg_counts_recorded (b : HGraphBuilder) (g : HGraph)
    (st : StageOutcomes) :
    (b.BuildGraph g st).2.1.numberOfVRegs = b.codeItem.registersSize ∧
    (b.BuildGraph g st).2.1.numberOfInVRegs = b.codeItem.insSize := by
  rw [buildGraph_graph]
  exact ⟨rfl, rfl⟩

/-- C9: `SkipCompilation` returns `false` whenever the code generator is
null (unit testing) or the configured filter is `kEverything`, regardless
of code size; otherwise it returns exactly the huge-method predicate on
the code size — the size check is only reached in that case. -/
theorem C9_skip_guards (b : HGraphBuilder) :
    (b.codeGenerator = none → b.SkipCompilation = false) ∧
    (∀ cg : CodeGenerator, b.codeGenerator = some cg →
       (cg.compilerOptions.compilerFilter = CompilerFilter.kEverything →
          b.SkipCompilation = false) ∧
       (cg.compilerOptions.compilerFilter ≠ CompilerFilter.kEverything →
          b.SkipCompilation =
            cg.compilerOptions.IsHugeMethod b.codeItem.insnsSizeInCodeUnits)) := by
  constructor
  · intro hn
    unfold HGraphBuilder.SkipCompilation
    rw [hn]
  · intro cg hcg
    constructor
    · intro he
      unfold HGraphBuilder.SkipCompilation
      rw [hcg]
      simp [he]
    · intro hne
      unfold HGraphBuilder.SkipCompilation
      rw [hcg]
      cases hh : cg.compilerOptions.IsHugeMethod b.codeItem.insnsSizeInCodeUnits <;>
        simp [hne, hh]

/-- C9 witness: a null code generator is never skipped. -/
theorem C9_skip_guards_witness :
    HGraphBuilder.SkipCompilation ⟨none, ⟨4, 2, 1000000⟩⟩ = false :=
  (C9_skip_guards ⟨none, ⟨4, 2, 1000000⟩⟩).1 rfl

/-- C10: the intrinsic build is infallible: on the fixed 3-block intrinsic
skeleton (no required try/catch blocks, no phis), dominator-tree
construction and SSA finalization both return `kAnalysisSuccess` for every
shorty and staticness — exactly the two `DCHECK_EQ(..., kAnalysisSuccess)`
conditions of the source — and the embedding of the void function exposes
no other result code. -/
theorem C10_intrinsic_infallible (shorty : List Char) (isStatic : Bool)
    (g : HGraph) :
    (HGraphBuilder.BuildIntrinsicGraph shorty isStatic g).bdtResult =
      kAnalysisSuccess ∧
    (HGraphBuilder.BuildIntrinsicGraph shorty isStatic g).buildSsaResult =
      kAnalysisSuccess :=
  ⟨rfl, rfl⟩
